import Mathlib

/-!
Verification of the cinema-bot repository (src/cinema_bot.py, src/movie_searcher.py,
src/db.py) against its natural-language specification.

The Python sources are shallowly embedded: pure computations become Lean
functions, network calls are abstracted by oracle parameters (the response the
remote side would produce), the database is an explicit list of rows, and
exceptions are explicit (`Option`/dedicated constructors).
-/

set_option maxRecDepth 4000

/-! ## Data model -/

/-- A Telegram inline keyboard button (aiogram `InlineKeyboardButton`),
reduced to the two fields the bot sets: `text` and `callback_data`. -/
structure InlineKeyboardButton where
  text : String
  callback_data : String
deriving DecidableEq, Repr

/-- A row of `search_history` (db.py `SearchHistory`).  The autoincrement id and
the timestamp are not modelled; no claim depends on them. -/
structure SearchRecord where
  user_id : Nat
  query : String
  film_name : Option String
  film_year : Option String
deriving DecidableEq, Repr

/-- One row of the statistics query result: (film_name, film_year, count). -/
abbrev UserStat := String × Option String × Nat

/-- A film dict coming from the Kinopoisk API (or the error sentinel the code
builds).  Fields are `Option` because the Python code reads them with
`dict.get` and a `None`/absent default; `error` is `some msg` exactly for the
tagged error dicts such as `{"error": "Фильм не найден!"}`. -/
structure Film where
  filmId : Option Nat := none
  nameRu : Option String := none
  nameEn : Option String := none
  year : Option String := none
  rating : Option String := none
  description : Option String := none
  posterUrlPreview : Option String := none
  serial : Bool := false
  error : Option String := none
deriving DecidableEq, Repr, Inhabited

/-! ## Pagination arithmetic (cinema_bot.py lines 137-141, 223-227, 375-377) -/

/-- `total_pages = (total_items + page_size - 1) // page_size`
(cinema_bot.py line 138 and line 224). -/
def total_pages_calc (total_items page_size : Nat) : Nat :=
  (total_items + page_size - 1) / page_size

/-- `page = max(0, min(page, total_pages - 1))`
(cinema_bot.py line 140, line 226 and line 376). -/
def clamp_page (page : Int) (total_pages : Nat) : Int :=
  max 0 (min page ((total_pages : Int) - 1))

/-- The shared navigation-row construction: a "previous" button when
`page > 0`, a "next" button when `page < total_pages - 1`, and `None` instead
of a markup when the row is empty (cinema_bot.py lines 162-174, 241-253 and
337-349 all follow this shape, differing only in the callback data). -/
def pagination_row_keyboard (page total_pages : Int) (prev_data next_data : String) :
    Option (List (List InlineKeyboardButton)) :=
  let row :=
    (if 0 < page then [InlineKeyboardButton.mk "◀️" prev_data] else []) ++
    (if page < total_pages - 1 then [InlineKeyboardButton.mk "▶️" next_data] else [])
  if row = [] then none else some [row]

/-- `create_pagination_keyboard(page, total_pages, prefix="search")`
(cinema_bot.py lines 335-349). -/
def create_pagination_keyboard (page total_pages : Int) (pre : String) :
    Option (List (List InlineKeyboardButton)) :=
  pagination_row_keyboard page total_pages (pre ++ "_prev") (pre ++ "_next")

/-- The keyboard `kb` contains a button whose `callback_data` is `action`. -/
def keyboard_has_action (kb : Option (List (List InlineKeyboardButton)))
    (action : String) : Prop :=
  ∃ rows, kb = some rows ∧ ∃ row ∈ rows, ∃ b ∈ row, b.callback_data = action

/-! ## Rendering of history / stats pages -/

/-- Outcome of `show_history_page` / `show_stats_page`: either the fixed
empty-dataset message, or a rendered page carrying the (re-clamped, re-stored)
page index, the recomputed `total_pages`, the slice of items shown, and the
navigation keyboard. -/
inductive RenderResult (α : Type) where
  | emptyMessage (text : String)
  | page (page : Int) (total_pages : Nat) (items : List α)
      (keyboard : Option (List (List InlineKeyboardButton)))
deriving DecidableEq, Repr

/-- The page index stored back into the FSM state by a render
(`await state.update_data(page=page)` after the clamp); `none` when the
empty-dataset branch returned before any page math. -/
def rendered_page {α : Type} : RenderResult α → Option Int
  | .page p _ _ _ => some p
  | .emptyMessage _ => none

/-- `show_history_page` (cinema_bot.py lines 113-184), with the fetched
history and the stored page as inputs.  Messaging I/O is dropped; the page
arithmetic, slicing and keyboard construction are kept. -/
def show_history_page (all_history : List SearchRecord) (page : Int) :
    RenderResult SearchRecord :=
  if all_history = [] then
    .emptyMessage "Твоя история поисков пуста. Начни искать фильмы! 🎥"
  else
    let page_size := 20
    let total_items := all_history.length
    let total_pages := total_pages_calc total_items page_size
    let page := clamp_page page total_pages
    let start_idx := page.toNat * page_size
    let page_items := (all_history.drop start_idx).take page_size
    .page page total_pages page_items
      (pagination_row_keyboard page (total_pages : Int) "history_prev" "history_next")

/-- `show_stats_page` (cinema_bot.py lines 198-263); identical page logic over
the stats rows, with `stats_prev`/`stats_next` callbacks. -/
def show_stats_page (user_stats : List UserStat) (page : Int) :
    RenderResult UserStat :=
  if user_stats = [] then
    .emptyMessage "У тебя нет статистики просмотров. Начни искать фильмы! 🎥"
  else
    let page_size := 20
    let total_items := user_stats.length
    let total_pages := total_pages_calc total_items page_size
    let page := clamp_page page total_pages
    let start_idx := page.toNat * page_size
    let page_items := (user_stats.drop start_idx).take page_size
    .page page total_pages page_items
      (pagination_row_keyboard page (total_pages : Int) "stats_prev" "stats_next")

/-- `history_prev_page` callback handler (cinema_bot.py lines 426-432):
`page = max(0, page - 1)`, then re-render. -/
def history_prev_page (all_history : List SearchRecord) (page : Int) :
    RenderResult SearchRecord :=
  show_history_page all_history (max 0 (page - 1))

/-- `history_next_page` callback handler (cinema_bot.py lines 435-441):
`page = page + 1`, then re-render (the render clamps). -/
def history_next_page (all_history : List SearchRecord) (page : Int) :
    RenderResult SearchRecord :=
  show_history_page all_history (page + 1)

/-- `stats_prev_page` callback handler (cinema_bot.py lines 444-450). -/
def stats_prev_page (user_stats : List UserStat) (page : Int) :
    RenderResult UserStat :=
  show_stats_page user_stats (max 0 (page - 1))

/-- `stats_next_page` callback handler (cinema_bot.py lines 453-459). -/
def stats_next_page (user_stats : List UserStat) (page : Int) :
    RenderResult UserStat :=
  show_stats_page user_stats (page + 1)

/-! ## Film Lookup Service (movie_searcher.py `MovieSearcher.fetch_movies`) -/

/-- The error sentinel built at movie_searcher.py line 94:
`[{"error": "Фильм не найден!"}]`. -/
def notFoundFilm : Film := { error := some "Фильм не найден!" }

/-- One interaction with the metadata provider, abstracted: either an HTTP
response with a status and a body — `some films` when `.json()` succeeds and
`data.get("films", [])` yields `films`, `none` when `.json()` raises — or a
transport-level failure raised by the request itself. -/
inductive ProviderResponse where
  | ok (status : Nat) (body : Option (List Film))
  | failure (msg : String)
deriving DecidableEq, Repr

/-- Lines 92-98 of movie_searcher.py: `results = data.get("films", [])`,
the empty case returning the NotFound sentinel, and the `[:movie_cap]`
truncation. -/
def films_to_results (movie_cap : Nat) (films : List Film) : List Film :=
  if films = [] then [notFoundFilm] else films.take movie_cap

instance exceptDecEq {ε α : Type} [DecidableEq ε] [DecidableEq α] :
    DecidableEq (Except ε α)
  | .ok a, .ok b =>
    if h : a = b then .isTrue (by rw [h])
    else .isFalse (by intro he; cases he; exact h rfl)
  | .ok _, .error _ => .isFalse (by intro h; cases h)
  | .error _, .ok _ => .isFalse (by intro h; cases h)
  | .error e, .error f =>
    if h : e = f then .isTrue (by rw [h])
    else .isFalse (by intro he; cases he; exact h rfl)

/-- What a call to `fetch_movies` did: the value returned or the exception
propagated, how many HTTP requests were issued, and the backoffs slept
(in milliseconds). -/
structure FetchOutcome where
  result : Except String (List Film)
  requests : Nat
  backoff_ms : List Nat
deriving DecidableEq, Repr

/-- `MovieSearcher.fetch_movies` (movie_searcher.py lines 56-102) over response
oracles: `r1` is the provider's answer to the first request, `r2` to the retry
(consulted only on HTTP 429).  On 429 the code sleeps 0.5 s and retries once;
401/403 and other non-200 statuses leave `data = {}`; exceptions (transport
errors and `.json()` failures) are logged and re-raised. -/
def fetch_movies (movie_cap : Nat) (r1 r2 : ProviderResponse) : FetchOutcome :=
  match r1 with
  | .failure m => ⟨.error m, 1, []⟩
  | .ok status body =>
    let step : Except String (List Film) × Nat × List Nat :=
      if status = 429 then
        match r2 with
        | .failure m => (.error m, 2, [500])
        | .ok _ body2 =>
          match body2 with
          | none => (.error "JSONDecodeError", 2, [500])
          | some films => (.ok films, 2, [500])
      else if status = 401 ∨ status = 403 then (.ok [], 1, [])
      else if status ≠ 200 then (.ok [], 1, [])
      else
        match body with
        | none => (.error "JSONDecodeError", 1, [])
        | some films => (.ok films, 1, [])
    match step with
    | (.error m, n, b) => ⟨.error m, n, b⟩
    | (.ok films, n, b) => ⟨.ok (films_to_results movie_cap films), n, b⟩

/-! ## Link Resolver (movie_searcher.py `fetch_movie_links` and helpers) -/

def BASE_SSPOISK_URL : String := "https://sspoisk.ru/"

def FILMIX_SEARCH_URL : String := "https://filmix.date/engine/ajax/sphinx_search.php"

def MOVIE_FILMIX_URL : String := "https://filmix.date/play/"

/-- Python `f"{x}"` on an optional value: `None` prints as `"None"`. -/
def pyStr (o : Option String) : String := o.getD "None"

/-- One `<article class="shortstory line">` block of the Filmix listing:
its `data-id` attribute and the text of its `h2.name` heading (absent when the
element is missing). -/
structure FilmixEntry where
  data_id : Option String
  title : Option String
deriving DecidableEq, Repr

/-- The Filmix site's answer to the search POST: a parsed listing, or any of
the caught failures (HTTP error, `raise_for_status`, parse error) — all of
which leave `links` untouched. -/
inductive FilmixResponse where
  | ok (entries : List FilmixEntry)
  | failure
deriving DecidableEq, Repr

/-- `MovieSearcher._parse_filmix_response` (movie_searcher.py lines 166-191),
parameterised by the fuzzy-similarity function `ratioFn` (fuzzywuzzy
`fuzz.ratio`, a 0-100 integer score).  Entries without a truthy `data-id` or
without a title element are skipped; the first entry whose lowered title
scores at least 30 against the lowered movie title has its link appended and
the loop breaks. -/
def _parse_filmix_response (ratioFn : String → String → Nat) (movie_title : String)
    (links : List String) : List FilmixEntry → List String
  | [] => links
  | e :: rest =>
    match e.data_id with
    | none => _parse_filmix_response ratioFn movie_title links rest
    | some movie_id =>
      if movie_id = "" then _parse_filmix_response ratioFn movie_title links rest
      else
        match e.title with
        | none => _parse_filmix_response ratioFn movie_title links rest
        | some t =>
          if 30 ≤ ratioFn (t.trim.toLower) (movie_title.toLower) then
            links ++ [MOVIE_FILMIX_URL ++ movie_id]
          else _parse_filmix_response ratioFn movie_title links rest

/-- The form-encoded search payload built at movie_searcher.py lines 138-143.
`movie_year` is interpolated with Python f-string semantics (`pyStr`). -/
def filmix_payload (movie_title : String) (movie_year : Option String) : String :=
  "scf=fx&story=" ++ movie_title ++ " " ++ pyStr movie_year ++
  "&search_start=0&do=search&subaction=search&years_ot=" ++ pyStr movie_year ++
  "&years_do=" ++ pyStr movie_year ++
  "&kpi_ot=1&kpi_do=10&imdb_ot=1&imdb_do=10" ++
  "&sort_name=&undefined=asc&sort_date=&sort_favorite=&simple=1"

/-- `MovieSearcher._try_add_filmix_link` (movie_searcher.py lines 128-164):
posts the payload, and on success parses the response; every caught failure
leaves `links` unchanged.  Returns the new links and the payload that was
sent. -/
def _try_add_filmix_link (ratioFn : String → String → Nat) (resp : FilmixResponse)
    (links : List String) (movie_title : String) (movie_year : Option String) :
    List String × String :=
  let payload := filmix_payload movie_title movie_year
  match resp with
  | .failure => (links, payload)
  | .ok entries => (_parse_filmix_response ratioFn movie_title links entries, payload)

/-- `MovieSearcher.fetch_movie_links` (movie_searcher.py lines 104-126).
Returns the links list together with the list of payloads sent to Filmix
(empty when the secondary source was not consulted).  Note line 118 of the
source: `movie_year = movie.get("nameRu", movie.get("nameEn", None))`. -/
def fetch_movie_links (links_cap : Nat) (ratioFn : String → String → Nat)
    (resp : FilmixResponse) (movie : Film) : List String × List String :=
  let movie_type := if movie.serial then "series" else "film"
  let movie_id := movie.filmId
  let movie_title := movie.nameRu.getD ""
  let movie_year : Option String :=
    match movie.nameRu with
    | some n => some n
    | none => movie.nameEn
  let links : List String :=
    match movie_id with
    | some i => if i = 0 then [] else
        [BASE_SSPOISK_URL ++ movie_type ++ "/" ++ toString i ++ "/"]
    | none => []
  if links.length < links_cap then
    let r := _try_add_filmix_link ratioFn resp links movie_title movie_year
    (r.1, [r.2])
  else (links, [])

/-! ## Caption construction (cinema_bot.py `get_film_caption`) -/

/-- Python truthiness of an optional string (`None` and `""` are falsy). -/
def truthy (o : Option String) : Bool :=
  match o with
  | some s => s != ""
  | none => false

/-- Python `html.escape` with default quoting: `&`, `<`, `>`, `"` and the
apostrophe (code point 39) become entities. -/
def html_escape (s : String) : String :=
  String.join (s.toList.map (fun c =>
    if c = '&' then "&amp;"
    else if c = '<' then "&lt;"
    else if c = '>' then "&gt;"
    else if c.toNat = 34 then "&quot;"
    else if c.toNat = 39 then "&#x27;"
    else String.singleton c))

/-- Python `s[:stop]` for an `int` stop (negative stops count from the end,
and clamp at zero). -/
def pySliceTo (s : String) (stop : Int) : String :=
  if 0 ≤ stop then s.take stop.toNat
  else s.take ((s.length : Int) + stop).toNat

/-- `film.get("nameRu", film.get("nameEn", None))`
(cinema_bot.py line 306). -/
def get_film_name (film : Film) : Option String :=
  match film.nameRu with
  | some n => some n
  | none => film.nameEn

/-- Result of `get_film_caption` (cinema_bot.py lines 300-332): the error
branch returns the bare message string (line 303), the normal branch the
`(caption, film_name, film_year)` triple. -/
inductive CaptionResult where
  | errorText (msg : String)
  | ok (caption : String) (film_name film_year : Option String)
deriving DecidableEq, Repr

/-- `get_film_caption` (cinema_bot.py lines 300-332).  The Filmix oracle
parameters are threaded through to the `fetch_movie_links` call at
line 310. -/
def get_film_caption (links_cap : Nat) (ratioFn : String → String → Nat)
    (resp : FilmixResponse) (film : Film) : CaptionResult :=
  match film.error with
  | some msg => .errorText msg
  | none =>
    let film_name := get_film_name film
    let film_year := film.year
    let film_rating := film.rating
    let film_description := film.description
    let links := (fetch_movie_links links_cap ratioFn resp film).1
    let caption : String :=
      if truthy film_name && truthy film_year then
        match film.filmId with
        | some film_id =>
          if film_id ≠ 0 then
            "<a href=\"https://www.kinopoisk.ru/film/" ++ toString film_id ++
            "/\"><b>" ++ html_escape (film_name.getD "") ++ " (" ++
            film_year.getD "" ++ ")</b></a>\n"
          else
            "<b>" ++ html_escape (film_name.getD "") ++ " (" ++
            film_year.getD "" ++ ")</b>\n"
        | none =>
          "<b>" ++ html_escape (film_name.getD "") ++ " (" ++
          film_year.getD "" ++ ")</b>\n"
      else ""
    let caption :=
      caption ++
        (if truthy film_rating && (film_rating.getD "" != "null") then
          "<b>Рейтинг</b>: " ++ film_rating.getD "" ++ "\n"
        else "")
    let max_description_length : Int :=
      1024 - (caption.length : Int) - ((links.map String.length).sum : Int)
    let caption :=
      caption ++
        (match film_description with
        | some d =>
          if d != "" then
            "<blockquote>" ++ html_escape (pySliceTo d max_description_length) ++
            "</blockquote>\n"
          else ""
        | none => "")
    let caption :=
      links.foldl (fun acc link =>
        acc ++ "<a href=\"" ++ link ++ "\">🔗Посмотреть</a>\n") caption
    .ok caption film_name film_year

/-! ## Search history repository (db.py) -/

/-- `add_search` (db.py lines 79-104): appends one `SearchHistory` row.
The idempotent creation of the `users` row is not modelled (no claim
mentions the users table). -/
def add_search (db : List SearchRecord) (telegram_id : Nat) (query : String)
    (film_name film_year : Option String) : List SearchRecord :=
  db ++ [⟨telegram_id, query, film_name, film_year⟩]

/-- The GROUP BY key of `get_user_stats`: `some (film_name, film_year)` for a
row with non-null `film_name`, `none` otherwise. -/
def user_stats_key (r : SearchRecord) : Option (String × Option String) :=
  r.film_name.map (fun n => (n, r.film_year))

/-- `get_user_stats` (db.py lines 124-141) as list semantics of the SQL query:
filter the user's rows with `film_name IS NOT NULL`, group by
`(film_name, film_year)`, count each group, order by count descending. -/
def get_user_stats (records : List SearchRecord) (telegram_id : Nat) :
    List UserStat :=
  let filtered := records.filter
    (fun r => r.user_id == telegram_id && r.film_name.isSome)
  let keys := (filtered.filterMap user_stats_key).dedup
  let rows : List UserStat := keys.map (fun k =>
    (k.1, k.2, (filtered.filter (fun r => decide (user_stats_key r = some k))).length))
  List.insertionSort (fun a b => b.2.2 ≤ a.2.2) rows

/-! ## Search-results page and the free-text message handler -/

/-- Outcome of `show_search_page` (cinema_bot.py lines 352-423): the
`film_info` empty branch (which records a null search, lines 364-373), a
successful render (page re-clamped and re-stored, keyboard built, search
recorded with the resolved name/year, lines 375-423), or the exception raised
at line 380 when `get_film_caption` returned a bare error string that does not
unpack into a triple (state already updated with the clamped page, db
untouched). -/
inductive SearchPageResult where
  | notFound (text : String) (db : List SearchRecord)
  | shown (page : Int) (total_pages : Nat)
      (keyboard : Option (List (List InlineKeyboardButton)))
      (db : List SearchRecord)
  | raised (page : Int) (total_pages : Nat) (db : List SearchRecord)
deriving DecidableEq, Repr

/-- `show_search_page` (cinema_bot.py lines 352-423). -/
def show_search_page (links_cap : Nat) (ratioFn : String → String → Nat)
    (resp : FilmixResponse) (user_id : Nat) (query : String)
    (film_info : List Film) (page : Int) (db : List SearchRecord) :
    SearchPageResult :=
  if film_info = [] then
    .notFound "Фильм не найден!" (add_search db user_id query none none)
  else
    let total_pages := film_info.length
    let page := clamp_page page total_pages
    let film := film_info.getD page.toNat default
    match get_film_caption links_cap ratioFn resp film with
    | .errorText _ => .raised page total_pages db
    | .ok _ film_name film_year =>
      .shown page total_pages
        (create_pagination_keyboard page (total_pages : Int) "search")
        (add_search db user_id query film_name film_year)

/-- The page index stored into the FSM state by `show_search_page`
(the `update_data` at line 377 runs before the caption call, so the `raised`
branch has stored the clamped page too). -/
def search_rendered_page : SearchPageResult → Option Int
  | .shown p _ _ _ => some p
  | .raised p _ _ => some p
  | .notFound _ _ => none

/-- `search_prev_page` callback handler (cinema_bot.py lines 462-468). -/
def search_prev_page (links_cap : Nat) (ratioFn : String → String → Nat)
    (resp : FilmixResponse) (user_id : Nat) (query : String)
    (film_info : List Film) (page : Int) (db : List SearchRecord) :
    SearchPageResult :=
  show_search_page links_cap ratioFn resp user_id query film_info
    (max 0 (page - 1)) db

/-- `search_next_page` callback handler (cinema_bot.py lines 471-477). -/
def search_next_page (links_cap : Nat) (ratioFn : String → String → Nat)
    (resp : FilmixResponse) (user_id : Nat) (query : String)
    (film_info : List Film) (page : Int) (db : List SearchRecord) :
    SearchPageResult :=
  show_search_page links_cap ratioFn resp user_id query film_info
    (page + 1) db

/-- Final database of the free-text handler, or `raised` when the render threw
(in which case the handler's own `add_search` at lines 296-297 never ran). -/
inductive HandlerOutcome where
  | ok (db : List SearchRecord)
  | raised (db : List SearchRecord)
deriving DecidableEq, Repr

/-- `movie_search_handler` (cinema_bot.py lines 266-297) from the point where
`film_info` is known (the fetch and its exception wrapping produce
`film_info`): set state `page=0, query, film_info`, render page 0 (which
itself records a search), then record the raw query with null name/year. -/
def movie_search_handler (links_cap : Nat) (ratioFn : String → String → Nat)
    (resp : FilmixResponse) (user_id : Nat) (query : String)
    (film_info : List Film) (db : List SearchRecord) : HandlerOutcome :=
  match show_search_page links_cap ratioFn resp user_id query film_info 0 db with
  | .raised _ _ db1 => .raised db1
  | .notFound _ db1 => .ok (add_search db1 user_id query none none)
  | .shown _ _ _ db1 => .ok (add_search db1 user_id query none none)

/-! ## Helper lemmas -/

lemma string_append_right_ne (s a b : String) (h : a ≠ b) : s ++ a ≠ s ++ b := by
  intro he
  apply h
  have hd := congrArg String.data he
  simp [String.data_append] at hd
  exact String.ext hd

lemma one_le_total_pages (n ps : Nat) (hn : 1 ≤ n) (hp : 1 ≤ ps) :
    1 ≤ total_pages_calc n ps := by
  unfold total_pages_calc
  rw [Nat.one_le_div_iff hp]
  omega

lemma clamp_page_bounds (page : Int) (tp : Nat) (h : 1 ≤ tp) :
    0 ≤ clamp_page page tp ∧ clamp_page page tp < (tp : Int) := by
  unfold clamp_page
  omega

lemma rendered_page_show_history (hist : List SearchRecord) (x : Int)
    (hne : hist ≠ []) :
    rendered_page (show_history_page hist x) =
      some (clamp_page x (total_pages_calc hist.length 20)) := by
  rw [show_history_page, if_neg hne]
  rfl

lemma rendered_page_show_stats (stats : List UserStat) (x : Int)
    (hne : stats ≠ []) :
    rendered_page (show_stats_page stats x) =
      some (clamp_page x (total_pages_calc stats.length 20)) := by
  rw [show_stats_page, if_neg hne]
  rfl

lemma search_rendered_page_show (lc : Nat) (rf : String → String → Nat)
    (resp : FilmixResponse) (uid : Nat) (query : String) (films : List Film)
    (x : Int) (db : List SearchRecord) (hne : films ≠ []) :
    search_rendered_page (show_search_page lc rf resp uid query films x db) =
      some (clamp_page x films.length) := by
  rw [show_search_page, if_neg hne]
  dsimp only
  split <;> rfl

lemma roundtrip_core (tp : Nat) (h1 : 1 ≤ tp) (p q : Int) :
    (0 < p → p < (tp : Int) - 1 →
      (clamp_page (max 0 (p - 1)) tp = q → clamp_page (q + 1) tp = p)
      ∧ (clamp_page (p + 1) tp = q → clamp_page (max 0 (q - 1)) tp = p))
    ∧ clamp_page (max 0 ((0 : Int) - 1)) tp = 0
    ∧ (p = (tp : Int) - 1 → clamp_page (p + 1) tp = p) := by
  unfold clamp_page
  refine ⟨fun hp hplt => ⟨fun h => ?_, fun h => ?_⟩, ?_, fun h => ?_⟩ <;> omega

/-- C1: in each of the three navigation contexts (history, stats,
search-results) over a fixed non-empty dataset, `prev` followed by `next`
(and `next` followed by `prev`) from an interior page returns the stored page
to its original value; `prev` at page 0 leaves the page at 0; and `next` at
the last page, after the render-time clamp, leaves the page unchanged. -/
theorem pagination_prev_next_roundtrip :
    (∀ (hist : List SearchRecord) (p q : Int), hist ≠ [] →
      (0 < p → p < (total_pages_calc hist.length 20 : Int) - 1 →
        (rendered_page (history_prev_page hist p) = some q →
          rendered_page (history_next_page hist q) = some p)
        ∧ (rendered_page (history_next_page hist p) = some q →
          rendered_page (history_prev_page hist q) = some p))
      ∧ rendered_page (history_prev_page hist 0) = some 0
      ∧ (p = (total_pages_calc hist.length 20 : Int) - 1 →
          rendered_page (history_next_page hist p) = some p))
    ∧ (∀ (stats : List UserStat) (p q : Int), stats ≠ [] →
      (0 < p → p < (total_pages_calc stats.length 20 : Int) - 1 →
        (rendered_page (stats_prev_page stats p) = some q →
          rendered_page (stats_next_page stats q) = some p)
        ∧ (rendered_page (stats_next_page stats p) = some q →
          rendered_page (stats_prev_page stats q) = some p))
      ∧ rendered_page (stats_prev_page stats 0) = some 0
      ∧ (p = (total_pages_calc stats.length 20 : Int) - 1 →
          rendered_page (stats_next_page stats p) = some p))
    ∧ (∀ (lc : Nat) (rf : String → String → Nat) (resp : FilmixResponse)
        (uid : Nat) (query : String) (films : List Film) (p q : Int)
        (db db2 : List SearchRecord), films ≠ [] →
      (0 < p → p < (films.length : Int) - 1 →
        (search_rendered_page
            (search_prev_page lc rf resp uid query films p db) = some q →
          search_rendered_page
            (search_next_page lc rf resp uid query films q db2) = some p)
        ∧ (search_rendered_page
            (search_next_page lc rf resp uid query films p db) = some q →
          search_rendered_page
            (search_prev_page lc rf resp uid query films q db2) = some p))
      ∧ search_rendered_page
          (search_prev_page lc rf resp uid query films 0 db) = some 0
      ∧ (p = (films.length : Int) - 1 →
          search_rendered_page
            (search_next_page lc rf resp uid query films p db) = some p)) := by
  refine ⟨?_, ?_, ?_⟩
  · intro hist p q hne
    have h1 : 1 ≤ total_pages_calc hist.length 20 :=
      one_le_total_pages _ _ (List.length_pos.mpr hne) (by norm_num)
    have hc := roundtrip_core (total_pages_calc hist.length 20) h1 p q
    simp only [history_prev_page, history_next_page,
      rendered_page_show_history hist _ hne, Option.some_inj]
    exact hc
  · intro stats p q hne
    have h1 : 1 ≤ total_pages_calc stats.length 20 :=
      one_le_total_pages _ _ (List.length_pos.mpr hne) (by norm_num)
    have hc := roundtrip_core (total_pages_calc stats.length 20) h1 p q
    simp only [stats_prev_page, stats_next_page,
      rendered_page_show_stats stats _ hne, Option.some_inj]
    exact hc
  · intro lc rf resp uid query films p q db db2 hne
    have h1 : 1 ≤ films.length := List.length_pos.mpr hne
    have hc := roundtrip_core films.length h1 p q
    simp only [search_prev_page, search_next_page,
      search_rendered_page_show lc rf resp uid query films _ _ hne,
      Option.some_inj]
    exact hc

/-- Witness for C1 at a concrete dataset: three search results, interior page
1; and a one-page history dataset for the boundary cases. -/
theorem pagination_prev_next_roundtrip_witness :
    search_rendered_page
      (search_next_page 1 (fun _ _ => 0) (.ok []) 7 "q"
        [default, default, default] 0 []) = some 1
    ∧ rendered_page (history_prev_page [⟨7, "q", none, none⟩] 0) = some 0 := by
  constructor
  · exact ((pagination_prev_next_roundtrip.2.2 1 (fun _ _ => 0) (.ok []) 7 "q"
      [default, default, default] 1 0 [] [] (by decide)).1
      (by decide) (by decide)).1 (by decide)
  · exact (pagination_prev_next_roundtrip.1 [⟨7, "q", none, none⟩] 0 0
      (by decide)).2.1

lemma show_history_page_eq_page (hist : List SearchRecord) (p pg : Int)
    (tp : Nat) (items : List SearchRecord)
    (kb : Option (List (List InlineKeyboardButton)))
    (h : show_history_page hist p = .page pg tp items kb) :
    hist ≠ [] ∧ tp = total_pages_calc hist.length 20 ∧ pg = clamp_page p tp
    ∧ kb = pagination_row_keyboard pg (tp : Int) "history_prev" "history_next" := by
  by_cases hh : hist = []
  · rw [show_history_page, if_pos hh] at h
    exact absurd h (by simp)
  · rw [show_history_page, if_neg hh] at h
    simp only [RenderResult.page.injEq] at h
    obtain ⟨h1, h2, _, h4⟩ := h
    subst h1; subst h2
    exact ⟨hh, rfl, rfl, h4.symm⟩

lemma show_stats_page_eq_page (stats : List UserStat) (p pg : Int)
    (tp : Nat) (items : List UserStat)
    (kb : Option (List (List InlineKeyboardButton)))
    (h : show_stats_page stats p = .page pg tp items kb) :
    stats ≠ [] ∧ tp = total_pages_calc stats.length 20 ∧ pg = clamp_page p tp
    ∧ kb = pagination_row_keyboard pg (tp : Int) "stats_prev" "stats_next" := by
  by_cases hh : stats = []
  · rw [show_stats_page, if_pos hh] at h
    exact absurd h (by simp)
  · rw [show_stats_page, if_neg hh] at h
    simp only [RenderResult.page.injEq] at h
    obtain ⟨h1, h2, _, h4⟩ := h
    subst h1; subst h2
    exact ⟨hh, rfl, rfl, h4.symm⟩

lemma show_search_page_cases (lc : Nat) (rf : String → String → Nat)
    (resp : FilmixResponse) (uid : Nat) (query : String) (films : List Film)
    (p : Int) (db : List SearchRecord) :
    (films = [] ∧ show_search_page lc rf resp uid query films p db =
      .notFound "Фильм не найден!" (add_search db uid query none none))
    ∨ (films ≠ [] ∧ ∃ r, search_rendered_page
        (show_search_page lc rf resp uid query films p db) = some r
        ∧ r = clamp_page p films.length) := by
  by_cases hh : films = []
  · left
    exact ⟨hh, by rw [show_search_page, if_pos hh]⟩
  · right
    exact ⟨hh, clamp_page p films.length,
      search_rendered_page_show lc rf resp uid query films p db hh, rfl⟩

lemma total_pages_bounds (n P : Nat) (hn : 1 ≤ n) (hP : 1 ≤ P) :
    P * (total_pages_calc n P - 1) < n ∧ n ≤ P * total_pages_calc n P := by
  have h1 : 1 ≤ (n + P - 1) / P := by
    rw [Nat.one_le_div_iff hP]
    omega
  obtain ⟨k, hk⟩ : ∃ k, (n + P - 1) / P = k + 1 := ⟨(n + P - 1) / P - 1, by omega⟩
  have hdm := Nat.div_add_mod (n + P - 1) P
  have hmlt : (n + P - 1) % P < P := Nat.mod_lt _ hP
  unfold total_pages_calc
  rw [hk] at hdm ⊢
  rw [Nat.mul_add, Nat.mul_one] at hdm
  rw [Nat.add_sub_cancel, Nat.mul_add, Nat.mul_one]
  generalize P * k = m at hdm ⊢
  generalize (n + P - 1) % P = r at hdm hmlt
  omega

lemma total_pages_eq_ceil (n P : Nat) (hn : 1 ≤ n) (hP : 1 ≤ P) :
    (total_pages_calc n P : ℤ) = ⌈(n : ℚ) / (P : ℚ)⌉ := by
  obtain ⟨hlt, hle⟩ := total_pages_bounds n P hn hP
  have htp1 : 1 ≤ total_pages_calc n P := one_le_total_pages n P hn hP
  have hP0 : (0 : ℚ) < (P : ℚ) := by exact_mod_cast hP
  symm
  rw [Int.ceil_eq_iff]
  constructor
  · rw [lt_div_iff₀ hP0]
    have h0 : ((P * (total_pages_calc n P - 1) : ℕ) : ℚ) < ((n : ℕ) : ℚ) :=
      Nat.cast_lt.mpr hlt
    rw [Nat.cast_mul, Nat.cast_sub htp1] at h0
    push_cast at h0 ⊢
    linarith [h0, mul_comm ((total_pages_calc n P : ℚ) - 1) (P : ℚ)]
  · rw [div_le_iff₀ hP0]
    have h3 : ((n : ℕ) : ℚ) ≤ ((P * total_pages_calc n P : ℕ) : ℚ) :=
      Nat.cast_le.mpr hle
    rw [Nat.cast_mul, mul_comm] at h3
    push_cast
    exact h3

/-- C2: for every non-empty dataset and positive page size, the recomputed
`total_pages` equals `ceil(len/page_size)` (characterised both arithmetically
and as the rational ceiling) and is at least 1, and the render-time clamp puts
any stored page — out-of-range values included — into `[0, total_pages - 1]`;
consequently every rendered history/stats/search page index `pg` satisfies
`0 ≤ pg < total_pages`. -/
theorem render_page_in_bounds :
    (∀ n P : Nat, 1 ≤ n → 1 ≤ P →
      1 ≤ total_pages_calc n P
      ∧ P * (total_pages_calc n P - 1) < n ∧ n ≤ P * total_pages_calc n P
      ∧ (total_pages_calc n P : ℤ) = ⌈(n : ℚ) / (P : ℚ)⌉
      ∧ ∀ page : Int, 0 ≤ clamp_page page (total_pages_calc n P)
          ∧ clamp_page page (total_pages_calc n P) < (total_pages_calc n P : Int))
    ∧ (∀ (hist : List SearchRecord) (p pg : Int) (tp : Nat) items kb,
        show_history_page hist p = .page pg tp items kb →
        tp = total_pages_calc hist.length 20 ∧ 0 ≤ pg ∧ pg < (tp : Int))
    ∧ (∀ (stats : List UserStat) (p pg : Int) (tp : Nat) items kb,
        show_stats_page stats p = .page pg tp items kb →
        tp = total_pages_calc stats.length 20 ∧ 0 ≤ pg ∧ pg < (tp : Int))
    ∧ (∀ (lc : Nat) (rf : String → String → Nat) (resp : FilmixResponse)
        (uid : Nat) (query : String) (films : List Film) (p r : Int)
        (db : List SearchRecord), films ≠ [] →
        search_rendered_page (show_search_page lc rf resp uid query films p db) =
          some r →
        0 ≤ r ∧ r < (films.length : Int)) := by
  refine ⟨?_, ?_, ?_, ?_⟩
  · intro n P hn hP
    exact ⟨one_le_total_pages n P hn hP, (total_pages_bounds n P hn hP).1,
      (total_pages_bounds n P hn hP).2, total_pages_eq_ceil n P hn hP,
      fun page => clamp_page_bounds page _ (one_le_total_pages n P hn hP)⟩
  · intro hist p pg tp items kb h
    obtain ⟨hne, htp, hpg, -⟩ := show_history_page_eq_page hist p pg tp items kb h
    have h1 : 1 ≤ tp := htp ▸
      one_le_total_pages _ _ (List.length_pos.mpr hne) (by norm_num)
    obtain ⟨hb1, hb2⟩ := clamp_page_bounds p tp h1
    exact ⟨htp, hpg ▸ hb1, hpg ▸ hb2⟩
  · intro stats p pg tp items kb h
    obtain ⟨hne, htp, hpg, -⟩ := show_stats_page_eq_page stats p pg tp items kb h
    have h1 : 1 ≤ tp := htp ▸
      one_le_total_pages _ _ (List.length_pos.mpr hne) (by norm_num)
    obtain ⟨hb1, hb2⟩ := clamp_page_bounds p tp h1
    exact ⟨htp, hpg ▸ hb1, hpg ▸ hb2⟩
  · intro lc rf resp uid query films p r db hne h
    rw [search_rendered_page_show lc rf resp uid query films p db hne,
      Option.some_inj] at h
    have h1 : 1 ≤ films.length := List.length_pos.mpr hne
    obtain ⟨hb1, hb2⟩ := clamp_page_bounds p films.length h1
    exact ⟨h ▸ hb1, h ▸ hb2⟩

/-- Witness for C2: dataset of 41 items, page size 20, stored page 99. -/
theorem render_page_in_bounds_witness :
    (1 ≤ total_pages_calc 41 20
      ∧ (total_pages_calc 41 20 : ℤ) = ⌈(41 : ℚ) / (20 : ℚ)⌉
      ∧ 0 ≤ clamp_page 99 (total_pages_calc 41 20)
      ∧ clamp_page 99 (total_pages_calc 41 20) < (total_pages_calc 41 20 : Int))
    ∧ (0 ≤ clamp_page (-5) 1 ∧ clamp_page (-5) 1 < (1 : Int)) := by
  constructor
  · obtain ⟨w1, -, -, w4, w5⟩ :=
      render_page_in_bounds.1 41 20 (by decide) (by decide)
    exact ⟨w1, by exact_mod_cast w4, (w5 99).1, (w5 99).2⟩
  · obtain ⟨-, hb⟩ := render_page_in_bounds.2.2.1 [("f", some "2000", 3)]
      (-5) (clamp_page (-5) (total_pages_calc 1 20)) (total_pages_calc 1 20)
      [("f", some "2000", 3)]
      (pagination_row_keyboard (clamp_page (-5) (total_pages_calc 1 20))
        ((total_pages_calc 1 20 : Nat) : Int) "stats_prev" "stats_next")
      (by rfl)
    exact hb

lemma pagination_row_keyboard_spec (page total_pages : Int) (pd nd : String)
    (hne : pd ≠ nd) :
    (keyboard_has_action (pagination_row_keyboard page total_pages pd nd) pd
      ↔ 0 < page)
    ∧ (keyboard_has_action (pagination_row_keyboard page total_pages pd nd) nd
      ↔ page < total_pages - 1)
    ∧ (pagination_row_keyboard page total_pages pd nd = none
      ↔ ¬ 0 < page ∧ ¬ page < total_pages - 1) := by
  unfold pagination_row_keyboard keyboard_has_action
  by_cases h1 : 0 < page <;> by_cases h2 : page < total_pages - 1 <;>
    simp [h1, h2, hne, Ne.symm hne]

/-- C3: the navigation controls contain a "previous" button (callback
`<prefix>_prev`) iff `page > 0`, a "next" button (callback `<prefix>_next`)
iff `page < total_pages - 1`, and no control row at all (markup `None`) when
neither holds — both for `create_pagination_keyboard` and for the keyboard
built inline by `show_history_page`. -/
theorem create_pagination_keyboard_controls :
    (∀ (page total_pages : Int) (pre : String),
      (keyboard_has_action (create_pagination_keyboard page total_pages pre)
          (pre ++ "_prev") ↔ 0 < page)
      ∧ (keyboard_has_action (create_pagination_keyboard page total_pages pre)
          (pre ++ "_next") ↔ page < total_pages - 1)
      ∧ (create_pagination_keyboard page total_pages pre = none
          ↔ ¬ 0 < page ∧ ¬ page < total_pages - 1))
    ∧ (∀ (hist : List SearchRecord) (p pg : Int) (tp : Nat) items kb,
      show_history_page hist p = .page pg tp items kb →
      (keyboard_has_action kb "history_prev" ↔ 0 < pg)
      ∧ (keyboard_has_action kb "history_next" ↔ pg < (tp : Int) - 1)
      ∧ (kb = none ↔ ¬ 0 < pg ∧ ¬ pg < (tp : Int) - 1)) := by
  constructor
  · intro page total_pages pre
    exact pagination_row_keyboard_spec page total_pages (pre ++ "_prev")
      (pre ++ "_next") (string_append_right_ne pre _ _ (by decide))
  · intro hist p pg tp items kb h
    obtain ⟨-, -, -, hkb⟩ := show_history_page_eq_page hist p pg tp items kb h
    rw [hkb]
    exact pagination_row_keyboard_spec pg ((tp : Nat) : Int) "history_prev"
      "history_next" (by decide)

/-- Witness for C3's history conjunct at a two-page history (21 records,
clamped page 0): the render shows a "next" control and no "previous". -/
theorem create_pagination_keyboard_controls_witness :
    ((keyboard_has_action
        (pagination_row_keyboard 0 ((2 : Nat) : Int) "history_prev" "history_next")
        "history_next" ↔ (0 : Int) < (2 : Int) - 1)
      ∧ (keyboard_has_action (create_pagination_keyboard 3 4 "search")
          ("search" ++ "_prev") ↔ (0 : Int) < 3)) := by
  constructor
  · exact (create_pagination_keyboard_controls.2
      (List.replicate 21 ⟨7, "q", none, none⟩) 0 0 2
      (List.take 20 (List.replicate 21 ⟨7, "q", none, none⟩))
      (pagination_row_keyboard 0 ((2 : Nat) : Int) "history_prev" "history_next")
      (by rfl)).2.1
  · exact (create_pagination_keyboard_controls.1 3 4 "search").1

lemma films_to_results_length (cap : Nat) (hcap : 1 ≤ cap) (films : List Film) :
    (films_to_results cap films).length ≤ cap := by
  unfold films_to_results
  split
  · simpa using hcap
  · exact le_trans (List.length_take_le _ _) (le_refl _)

/-- C4: `fetch_movies` never returns more than `movie_cap` candidates; a
successful 200 response with a non-empty `films` list yields exactly its first
`movie_cap` elements in provider order (`List.take`), and a 200 response with
zero films yields exactly the one-element NotFound list whose error message is
the localized "Film not found" text. -/
theorem fetch_movies_cap_and_order (cap : Nat) (hcap : 1 ≤ cap)
    (r1 r2 : ProviderResponse) :
    (∀ out, (fetch_movies cap r1 r2).result = .ok out → out.length ≤ cap)
    ∧ (∀ films, films ≠ [] → r1 = .ok 200 (some films) →
        (fetch_movies cap r1 r2).result = .ok (films.take cap))
    ∧ (r1 = .ok 200 (some []) →
        (fetch_movies cap r1 r2).result = .ok [notFoundFilm])
    ∧ notFoundFilm.error = some "Фильм не найден!" := by
  refine ⟨?_, ?_, ?_, rfl⟩
  · intro out h
    rcases r1 with ⟨status, body⟩ | m
    · by_cases h429 : status = 429
      · rcases r2 with ⟨s2, body2⟩ | m2
        · rcases body2 with - | films
          · simp [fetch_movies, h429] at h
          · simp [fetch_movies, h429] at h
            exact h ▸ films_to_results_length cap hcap films
        · simp [fetch_movies, h429] at h
      · by_cases h43 : status = 401 ∨ status = 403
        · simp [fetch_movies, h429, h43] at h
          exact h ▸ films_to_results_length cap hcap []
        · by_cases h200 : status = 200
          · subst h200
            rcases body with - | films
            · simp [fetch_movies] at h
            · simp [fetch_movies] at h
              exact h ▸ films_to_results_length cap hcap films
          · simp [fetch_movies, h429, h43, h200] at h
            exact h ▸ films_to_results_length cap hcap []
    · simp [fetch_movies] at h
  · intro films hne h1
    subst h1
    simp [fetch_movies, films_to_results, hne]
  · intro h1
    subst h1
    simp [fetch_movies, films_to_results]

/-- Witness for C4 with `movie_cap = 3`: a 200 response carrying four films is
truncated to the first three, and a 200 response with zero films yields the
NotFound sentinel. -/
theorem fetch_movies_cap_and_order_witness :
    (fetch_movies 3
        (.ok 200 (some [{ filmId := some 1 }, { filmId := some 2 },
          { filmId := some 3 }, { filmId := some 4 }]))
        (.ok 200 (some []))).result =
      .ok [{ filmId := some 1 }, { filmId := some 2 }, { filmId := some 3 }]
    ∧ (fetch_movies 3 (.ok 200 (some [])) (.ok 200 (some []))).result =
      .ok [notFoundFilm] := by
  constructor
  · have h := (fetch_movies_cap_and_order 3 (by decide)
      (.ok 200 (some [{ filmId := some 1 }, { filmId := some 2 },
        { filmId := some 3 }, { filmId := some 4 }]))
      (.ok 200 (some []))).2.1
      [{ filmId := some 1 }, { filmId := some 2 },
        { filmId := some 3 }, { filmId := some 4 }] (by decide) rfl
    simpa using h
  · exact (fetch_movies_cap_and_order 3 (by decide)
      (.ok 200 (some [])) (.ok 200 (some []))).2.2.1 rfl

/-- C5 (amended): on HTTP 429 `fetch_movies` sleeps a single fixed 500 ms
backoff (≥ 500 ms) and retries exactly once — two requests total, while a
non-429 first response issues exactly one request; if the retry returns a
parseable body the service proceeds with whatever was parsed without further
retries (a non-empty list truncated to the cap, an empty list producing the
NotFound result); but a transport failure or an unparseable body on the retry
propagates as an exception to the caller instead of degrading. -/
theorem fetch_movies_429_retry (cap : Nat) (b1 : Option (List Film))
    (r2 : ProviderResponse) :
    ((fetch_movies cap (.ok 429 b1) r2).requests = 2
      ∧ (fetch_movies cap (.ok 429 b1) r2).backoff_ms = [500]
      ∧ ∀ t ∈ (fetch_movies cap (.ok 429 b1) r2).backoff_ms, 500 ≤ t)
    ∧ (∀ s2 films, films ≠ [] → r2 = .ok s2 (some films) →
        (fetch_movies cap (.ok 429 b1) r2).result = .ok (films.take cap))
    ∧ (∀ s2, r2 = .ok s2 (some []) →
        (fetch_movies cap (.ok 429 b1) r2).result = .ok [notFoundFilm])
    ∧ (∀ s2, r2 = .ok s2 none →
        (fetch_movies cap (.ok 429 b1) r2).result = .error "JSONDecodeError")
    ∧ (∀ m, r2 = .failure m →
        (fetch_movies cap (.ok 429 b1) r2).result = .error m)
    ∧ (∀ (s : Nat) (b : Option (List Film)), s ≠ 429 →
        (fetch_movies cap (.ok s b) r2).requests = 1) := by
  refine ⟨?_, ?_, ?_, ?_, ?_, ?_⟩
  · rcases r2 with ⟨s2, b2⟩ | m2
    · rcases b2 with - | films <;> simp [fetch_movies]
    · simp [fetch_movies]
  · intro s2 films hne h1
    subst h1
    simp [fetch_movies, films_to_results, hne]
  · intro s2 h1
    subst h1
    simp [fetch_movies, films_to_results]
  · intro s2 h1
    subst h1
    simp [fetch_movies]
  · intro m h1
    subst h1
    simp [fetch_movies]
  · intro s b hs
    by_cases h43 : s = 401 ∨ s = 403
    · simp [fetch_movies, hs, h43]
    · by_cases h200 : s = 200
      · subst h200
        rcases b with - | films <;> simp [fetch_movies]
      · simp [fetch_movies, hs, h43, h200]

/-- C5 counterexample: the frozen claim says that when the single retry
"fails or yields no usable body, the service proceeds with whatever was parsed
(possibly empty, producing the NotFound result) rather than retrying again or
aborting"; but when the retry's body is unparseable the code re-raises the
`.json()` exception, so the outcome is an error, not the NotFound result the
claim requires. -/
theorem fetch_movies_429_retry_counterexample :
    (fetch_movies 3 (.ok 429 (some [])) (.ok 200 none)).requests = 2
    ∧ (fetch_movies 3 (.ok 429 (some [])) (.ok 200 none)).result =
        .error "JSONDecodeError"
    ∧ (fetch_movies 3 (.ok 429 (some [])) (.ok 200 none)).result ≠
        .ok [notFoundFilm] := by
  exact ⟨rfl, rfl, by decide⟩

/-- Witness for C5, spec Scenario D: first response 429, retry succeeds with
two films → exactly one retry (two requests), 500 ms backoff, two candidates
returned. -/
theorem fetch_movies_429_retry_witness :
    (fetch_movies 3 (.ok 429 none)
        (.ok 200 (some [{ filmId := some 1 }, { filmId := some 2 }]))).requests = 2
    ∧ (fetch_movies 3 (.ok 429 none)
        (.ok 200 (some [{ filmId := some 1 }, { filmId := some 2 }]))).result =
      .ok [{ filmId := some 1 }, { filmId := some 2 }] := by
  constructor
  · exact (fetch_movies_429_retry 3 none
      (.ok 200 (some [{ filmId := some 1 }, { filmId := some 2 }]))).1.1
  · have h := (fetch_movies_429_retry 3 none
      (.ok 200 (some [{ filmId := some 1 }, { filmId := some 2 }]))).2.1 200
      [{ filmId := some 1 }, { filmId := some 2 }] (by decide) rfl
    simpa using h

/-- An entry of the Filmix listing that the scan at movie_searcher.py lines
176-191 accepts: truthy `data-id`, a title element, and a fuzzy ratio of at
least 30 between the lowered titles. -/
def QualifiesEntry (rf : String → String → Nat) (movie_title : String)
    (e : FilmixEntry) : Prop :=
  ∃ id t, e.data_id = some id ∧ id ≠ "" ∧ e.title = some t
    ∧ 30 ≤ rf (t.trim.toLower) (movie_title.toLower)

lemma parse_filmix_skip (rf : String → String → Nat) (title : String)
    (links : List String) (e : FilmixEntry) (rest : List FilmixEntry)
    (h : ¬ QualifiesEntry rf title e) :
    _parse_filmix_response rf title links (e :: rest) =
      _parse_filmix_response rf title links rest := by
  rcases hd : e.data_id with - | id
  · simp [_parse_filmix_response, hd]
  · by_cases hid : id = ""
    · simp [_parse_filmix_response, hd, hid]
    · rcases ht : e.title with - | t
      · simp [_parse_filmix_response, hd, hid, ht]
      · by_cases hr : 30 ≤ rf (t.trim.toLower) (title.toLower)
        · exact absurd ⟨id, t, hd, hid, ht, hr⟩ h
        · simp [_parse_filmix_response, hd, hid, ht, hr]

lemma parse_filmix_accept (rf : String → String → Nat) (title : String)
    (links : List String) (e : FilmixEntry) (rest : List FilmixEntry)
    (id t : String) (hd : e.data_id = some id) (hid : id ≠ "")
    (ht : e.title = some t) (hr : 30 ≤ rf (t.trim.toLower) (title.toLower)) :
    _parse_filmix_response rf title links (e :: rest) =
      links ++ [MOVIE_FILMIX_URL ++ id] := by
  simp [_parse_filmix_response, hd, hid, ht, hr]

lemma parse_filmix_shape (rf : String → String → Nat) (title : String)
    (links : List String) (entries : List FilmixEntry) :
    _parse_filmix_response rf title links entries = links
    ∨ ∃ id, _parse_filmix_response rf title links entries =
        links ++ [MOVIE_FILMIX_URL ++ id] := by
  induction entries with
  | nil => exact Or.inl rfl
  | cons e rest ih =>
    by_cases hq : QualifiesEntry rf title e
    · obtain ⟨id, t, hd, hid, ht, hr⟩ := hq
      exact Or.inr ⟨id, parse_filmix_accept rf title links e rest id t hd hid ht hr⟩
    · rw [parse_filmix_skip rf title links e rest hq]
      exact ih

lemma try_add_filmix_shape (rf : String → String → Nat) (resp : FilmixResponse)
    (links : List String) (title : String) (year : Option String) :
    (_try_add_filmix_link rf resp links title year).1 = links
    ∨ ∃ id, (_try_add_filmix_link rf resp links title year).1 =
        links ++ [MOVIE_FILMIX_URL ++ id] := by
  rcases resp with ⟨entries⟩ | -
  · exact parse_filmix_shape rf title links entries
  · exact Or.inl rfl

/-- C7: the Filmix listing scan accepts the first entry whose (lowered,
trimmed) title scores a fuzzy ratio of at least 30 against the lowered film
title and stops there — later entries, even higher-scoring ones, are never
reached; when no entry qualifies the links list is unchanged; an entry with
ratio exactly 30 is accepted and one with ratio 29 is rejected. -/
theorem parse_filmix_first_match :
    (∀ (rf : String → String → Nat) (movie_title : String)
        (links : List String) (entries : List FilmixEntry),
      (∀ e ∈ entries, ¬ QualifiesEntry rf movie_title e) →
      _parse_filmix_response rf movie_title links entries = links)
    ∧ (∀ (rf : String → String → Nat) (movie_title : String)
        (links : List String) (pre : List FilmixEntry) (e : FilmixEntry)
        (post : List FilmixEntry),
      (∀ e2 ∈ pre, ¬ QualifiesEntry rf movie_title e2) →
      ∀ id t, e.data_id = some id → id ≠ "" → e.title = some t →
      30 ≤ rf (t.trim.toLower) (movie_title.toLower) →
      _parse_filmix_response rf movie_title links (pre ++ e :: post) =
        links ++ [MOVIE_FILMIX_URL ++ id])
    ∧ (∀ (movie_title : String) (links : List String) (id t : String),
        id ≠ "" →
        _parse_filmix_response (fun _ _ => 30) movie_title links
          [⟨some id, some t⟩] = links ++ [MOVIE_FILMIX_URL ++ id])
    ∧ (∀ (movie_title : String) (links : List String) (id t : String),
        _parse_filmix_response (fun _ _ => 29) movie_title links
          [⟨some id, some t⟩] = links) := by
  refine ⟨?_, ?_, ?_, ?_⟩
  · intro rf movie_title links entries hnone
    induction entries with
    | nil => rfl
    | cons e rest ih =>
      rw [parse_filmix_skip rf movie_title links e rest
        (hnone e (List.mem_cons_self e rest))]
      exact ih (fun e2 he2 => hnone e2 (List.mem_cons_of_mem e he2))
  · intro rf movie_title links pre e post hpre id t hd hid ht hr
    induction pre with
    | nil => exact parse_filmix_accept rf movie_title links e post id t hd hid ht hr
    | cons p pre2 ih =>
      rw [List.cons_append, parse_filmix_skip rf movie_title links p _
        (hpre p (List.mem_cons_self p pre2))]
      exact ih (fun e2 he2 => hpre e2 (List.mem_cons_of_mem p he2))
  · intro movie_title links id t hid
    exact parse_filmix_accept (fun _ _ => 30) movie_title links _ [] id t rfl hid
      rfl (le_refl 30)
  · intro movie_title links id t
    by_cases hid : id = "" <;> simp [_parse_filmix_response, hid]

/-- Witness for C7, spec Scenario E: first entry scores 45, second scores 20 —
only the first is linked and the scan stops there; plus the 30/29 boundary. -/
theorem parse_filmix_first_match_witness :
    _parse_filmix_response (fun _ _ => 45) "X" []
        [⟨some "7", some "A"⟩, ⟨some "8", some "B"⟩] =
      [MOVIE_FILMIX_URL ++ "7"]
    ∧ _parse_filmix_response (fun _ _ => 30) "X" [] [⟨some "9", some "T"⟩] =
      [MOVIE_FILMIX_URL ++ "9"]
    ∧ _parse_filmix_response (fun _ _ => 29) "X" [] [⟨some "9", some "T"⟩] = [] := by
  refine ⟨?_, ?_, ?_⟩
  · have h := parse_filmix_first_match.2.1 (fun _ _ => 45)
      "X" [] [] ⟨some "7", some "A"⟩ [⟨some "8", some "B"⟩]
      (by simp) "7" "A" rfl (by decide) rfl (by decide)
    simpa using h
  · have h := parse_filmix_first_match.2.2.1 "X" [] "9" "T" (by decide)
    simpa using h
  · exact parse_filmix_first_match.2.2.2 "X" [] "9" "T"

/-- C6 (amended with `links_cap >= 1`): `fetch_movie_links` returns at most
`links_cap` links, and when the candidate carries a (truthy) provider
identifier the first link is the deterministically synthesized primary URL
`BASE_SSPOISK_URL ++ ("series" if serial else "film") ++ "/" ++ id ++ "/"`. -/
theorem fetch_movie_links_cap_and_primary (links_cap : Nat)
    (hcap : 1 ≤ links_cap) (rf : String → String → Nat) (resp : FilmixResponse)
    (movie : Film) :
    (fetch_movie_links links_cap rf resp movie).1.length ≤ links_cap
    ∧ (∀ id, movie.filmId = some id → id ≠ 0 →
        (fetch_movie_links links_cap rf resp movie).1.head? =
          some (BASE_SSPOISK_URL ++ (if movie.serial then "series" else "film")
            ++ "/" ++ toString id ++ "/")) := by
  have hc : 0 < links_cap := hcap
  have hshape := fun (ls : List String) => try_add_filmix_shape rf resp ls
    (movie.nameRu.getD "")
    (match movie.nameRu with
      | some n => some n
      | none => movie.nameEn)
  rcases hid : movie.filmId with - | i
  · refine ⟨?_, ?_⟩
    · rcases hshape [] with h | ⟨id2, h⟩ <;>
        simp [fetch_movie_links, hid, h, hc, hcap]
    · intro id hid2
      exact Option.noConfusion hid2
  · by_cases hz : i = 0
    · subst hz
      refine ⟨?_, ?_⟩
      · rcases hshape [] with h | ⟨id2, h⟩ <;>
          simp [fetch_movie_links, hid, h, hc, hcap]
      · intro id hid2 hnz
        rw [Option.some_inj] at hid2
        exact absurd hid2.symm hnz
    · refine ⟨?_, ?_⟩
      · by_cases hlt : 1 < links_cap
        · rcases hshape [BASE_SSPOISK_URL ++
              (if movie.serial then "series" else "film") ++ "/" ++
              toString i ++ "/"] with h | ⟨id2, h⟩ <;>
            simp [fetch_movie_links, hid, hz, hlt, h] <;> omega
        · simp [fetch_movie_links, hid, hz, hlt, hcap]
      · intro id hid2 hnz
        rw [Option.some_inj] at hid2
        subst hid2
        by_cases hlt : 1 < links_cap
        · rcases hshape [BASE_SSPOISK_URL ++
              (if movie.serial then "series" else "film") ++ "/" ++
              toString i ++ "/"] with h | ⟨id2, h⟩ <;>
            simp [fetch_movie_links, hid, hz, hlt, h]
        · simp [fetch_movie_links, hid, hz, hlt]

/-- C6 counterexample: the claim quantifies over *every* configured
`links_cap`, but with `links_cap = 0` (the environment parser accepts
`LINK_CAP=0`) and a candidate carrying an id, the primary link is appended
unconditionally, so one link is returned — exceeding the cap. -/
theorem fetch_movie_links_cap_counterexample :
    (fetch_movie_links 0 (fun _ _ => 0) (.ok []) { filmId := some 1 }).1 =
      [BASE_SSPOISK_URL ++ "film" ++ "/" ++ toString 1 ++ "/"]
    ∧ ¬ ((fetch_movie_links 0 (fun _ _ => 0) (.ok [])
        { filmId := some 1 }).1.length ≤ 0) := by
  exact ⟨rfl, by decide⟩

/-- Witness for C6 with the default `links_cap = 1` and a series candidate:
exactly the one primary link, first (and only) in the list. -/
theorem fetch_movie_links_cap_and_primary_witness :
    (fetch_movie_links 1 (fun _ _ => 0) (.ok [])
        { filmId := some 435, serial := true }).1.length ≤ 1
    ∧ (fetch_movie_links 1 (fun _ _ => 0) (.ok [])
        { filmId := some 435, serial := true }).1.head? =
      some (BASE_SSPOISK_URL ++ "series" ++ "/" ++ toString 435 ++ "/") := by
  have h := fetch_movie_links_cap_and_primary 1 (by decide) (fun _ _ => 0)
    (.ok []) { filmId := some 435, serial := true }
  exact ⟨h.1, by simpa using h.2 435 rfl (by decide)⟩

/-- C8 (code bug evaluation): `fetch_movie_links` at a film with
`nameRu = "Venom"` and `year = "2018"` sends a Filmix payload whose search
term is "Venom Venom" and whose year bounds are "Venom" — line 118 of
movie_searcher.py assigns `movie.get("nameRu", movie.get("nameEn", None))`
to `movie_year`, so the film's title, not its release year, is interpolated
into the `story`, `years_ot` and `years_do` fields. -/
theorem fetch_movie_links_year_payload :
    (fetch_movie_links 2 (fun _ _ => 0) (.ok [])
        { filmId := some 1, nameRu := some "Venom", year := some "2018" }).2 =
      [filmix_payload "Venom" (some "Venom")]
    ∧ filmix_payload "Venom" (some "Venom") =
      "scf=fx&story=Venom Venom&search_start=0&do=search&subaction=search" ++
      "&years_ot=Venom&years_do=Venom" ++
      "&kpi_ot=1&kpi_do=10&imdb_ot=1&imdb_do=10" ++
      "&sort_name=&undefined=asc&sort_date=&sort_favorite=&simple=1"
    ∧ filmix_payload "Venom" (some "Venom") ≠
      filmix_payload "Venom" (some "2018") := by
  refine ⟨rfl, by decide, by decide⟩

lemma stats_pred_eq (uid : Nat) (n : String) (y : Option String)
    (r : SearchRecord) :
    (decide (user_stats_key r = some (n, y)) &&
      (r.user_id == uid && r.film_name.isSome)) =
    decide (r.user_id = uid ∧ r.film_name = some n ∧ r.film_year = y) := by
  have hbool : ∀ (a b : Bool), (a = true ↔ b = true) → a = b := by decide
  apply hbool
  rcases r with ⟨u, q, fn, fy⟩
  rcases fn with - | nm <;> simp [user_stats_key, Prod.ext_iff, and_comm, and_assoc]

lemma mem_stats_keys (records : List SearchRecord) (uid : Nat) (n : String)
    (y : Option String) :
    ((n, y) ∈ ((records.filter
        (fun r => r.user_id == uid && r.film_name.isSome)).filterMap
          user_stats_key).dedup
      ↔ ∃ r ∈ records, r.user_id = uid ∧ r.film_name = some n
          ∧ r.film_year = y) := by
  rw [List.mem_dedup, List.mem_filterMap]
  constructor
  · rintro ⟨r, hr, hkey⟩
    rw [List.mem_filter] at hr
    obtain ⟨hrm, hp⟩ := hr
    rcases r with ⟨u, q, fn, fy⟩
    rcases fn with - | nm
    · simp [user_stats_key] at hkey
    · simp only [user_stats_key, Option.map, Option.some_inj,
        Prod.mk.injEq] at hkey
      simp only [Bool.and_eq_true, beq_iff_eq] at hp
      exact ⟨⟨u, q, some nm, fy⟩, hrm,
        hp.1, by rw [hkey.1], by rw [hkey.2]⟩
  · rintro ⟨r, hr, hu, hn, hy⟩
    refine ⟨r, List.mem_filter.mpr ⟨hr, by simp [hu, hn]⟩, ?_⟩
    rw [user_stats_key, hn, hy]
    rfl

/-- C9: the statistics query keeps only the user's records with non-null
`film_name`, groups them by the `(film_name, film_year)` pair, counts each
group, and returns the groups in descending order of count: every returned
triple's count is exactly the number of the user's records carrying that
(name, year) pair and is positive, a pair appears in the output iff such a
record exists, and the output is pairwise sorted by descending count. -/
theorem get_user_stats_spec (records : List SearchRecord) (uid : Nat) :
    List.Pairwise (fun a b : UserStat => b.2.2 ≤ a.2.2)
      (get_user_stats records uid)
    ∧ (∀ n y c, (n, y, c) ∈ get_user_stats records uid →
        c = (records.filter (fun r =>
          decide (r.user_id = uid ∧ r.film_name = some n
            ∧ r.film_year = y))).length
        ∧ 0 < c)
    ∧ (∀ n y, (∃ c, (n, y, c) ∈ get_user_stats records uid) ↔
        ∃ r ∈ records, r.user_id = uid ∧ r.film_name = some n
          ∧ r.film_year = y) := by
  haveI htot : IsTotal UserStat (fun a b : UserStat => b.2.2 ≤ a.2.2) :=
    ⟨fun a b => Nat.le_total b.2.2 a.2.2⟩
  haveI htrans : IsTrans UserStat (fun a b : UserStat => b.2.2 ≤ a.2.2) :=
    ⟨fun _ _ _ hab hbc => le_trans hbc hab⟩
  have hcnt : ∀ (n : String) (y : Option String),
      ((records.filter (fun r => r.user_id == uid && r.film_name.isSome)).filter
        (fun r => decide (user_stats_key r = some (n, y)))).length =
      (records.filter (fun r => decide (r.user_id = uid ∧ r.film_name = some n
        ∧ r.film_year = y))).length := by
    intro n y
    rw [List.filter_filter]
    rw [List.filter_congr (fun r _ => stats_pred_eq uid n y r)]
  have hmem_rows : ∀ (n : String) (y : Option String) (c : Nat),
      (n, y, c) ∈ get_user_stats records uid ↔
        ((n, y) ∈ ((records.filter
            (fun r => r.user_id == uid && r.film_name.isSome)).filterMap
              user_stats_key).dedup
          ∧ c = ((records.filter
              (fun r => r.user_id == uid && r.film_name.isSome)).filter
                (fun r => decide (user_stats_key r = some (n, y)))).length) := by
    intro n y c
    rw [get_user_stats]
    rw [(List.perm_insertionSort (fun a b : UserStat => b.2.2 ≤ a.2.2) _).mem_iff]
    rw [List.mem_map]
    constructor
    · rintro ⟨k, hk, hkeq⟩
      simp only [Prod.mk.injEq] at hkeq
      obtain ⟨h1, h2, h3⟩ := hkeq
      have hk2 : k = (n, y) := Prod.ext h1 h2
      subst hk2
      exact ⟨hk, h3.symm⟩
    · rintro ⟨hk, hc⟩
      exact ⟨(n, y), hk, by rw [← hc]⟩
  refine ⟨?_, ?_, ?_⟩
  · rw [get_user_stats]
    exact List.sorted_insertionSort _ _
  · intro n y c hmem
    rw [hmem_rows n y c] at hmem
    obtain ⟨hk, hc⟩ := hmem
    constructor
    · rw [hc]
      exact hcnt n y
    · rw [List.mem_dedup, List.mem_filterMap] at hk
      obtain ⟨r, hr, hkey⟩ := hk
      have : r ∈ (records.filter
          (fun r => r.user_id == uid && r.film_name.isSome)).filter
            (fun r => decide (user_stats_key r = some (n, y))) :=
        List.mem_filter.mpr ⟨hr, by simp [hkey]⟩
      rw [hc]
      exact List.length_pos.mpr (List.ne_nil_of_mem this)
  · intro n y
    constructor
    · rintro ⟨c, hmem⟩
      rw [hmem_rows n y c] at hmem
      exact (mem_stats_keys records uid n y).mp hmem.1
    · intro hex
      exact ⟨_, (hmem_rows n y _).mpr
        ⟨(mem_stats_keys records uid n y).mpr hex, rfl⟩⟩

/-- Witness for C9: user 7 searched film "A" (2001) twice and "B" (2002) once,
with one null-name record and one record of another user mixed in; the count
of the "A" group is 2 and a pair is listed iff a matching record exists. -/
theorem get_user_stats_spec_witness :
    (2 = (([⟨7, "a", some "A", some "2001"⟩, ⟨7, "x", none, none⟩,
          ⟨7, "b", some "B", some "2002"⟩, ⟨8, "a", some "A", some "2001"⟩,
          ⟨7, "a2", some "A", some "2001"⟩] : List SearchRecord).filter
        (fun r => decide (r.user_id = 7 ∧ r.film_name = some "A"
          ∧ r.film_year = some "2001"))).length
      ∧ 0 < 2)
    ∧ ∃ r ∈ ([⟨7, "a", some "A", some "2001"⟩, ⟨7, "x", none, none⟩,
          ⟨7, "b", some "B", some "2002"⟩, ⟨8, "a", some "A", some "2001"⟩,
          ⟨7, "a2", some "A", some "2001"⟩] : List SearchRecord),
        r.user_id = 7 ∧ r.film_name = some "B" ∧ r.film_year = some "2002" := by
  constructor
  · exact (get_user_stats_spec [⟨7, "a", some "A", some "2001"⟩,
      ⟨7, "x", none, none⟩, ⟨7, "b", some "B", some "2002"⟩,
      ⟨8, "a", some "A", some "2001"⟩, ⟨7, "a2", some "A", some "2001"⟩]
        7).2.1 "A" (some "2001") 2 (by decide)
  · exact ((get_user_stats_spec [⟨7, "a", some "A", some "2001"⟩,
      ⟨7, "x", none, none⟩, ⟨7, "b", some "B", some "2002"⟩,
      ⟨8, "a", some "A", some "2001"⟩, ⟨7, "a2", some "A", some "2001"⟩]
        7).2.2 "B" (some "2002")).mp ⟨1, by decide⟩

lemma get_film_caption_ok (lc : Nat) (rf : String → String → Nat)
    (resp : FilmixResponse) (film : Film) (herr : film.error = none) :
    ∃ caption, get_film_caption lc rf resp film =
      .ok caption (get_film_name film) film.year :=
  ⟨_, by rw [get_film_caption, herr]⟩

lemma show_search_page_shown (lc : Nat) (rf : String → String → Nat)
    (resp : FilmixResponse) (uid : Nat) (query : String) (films : List Film)
    (x : Int) (db : List SearchRecord) (hne : films ≠ [])
    (herr : (films.getD (clamp_page x films.length).toNat default).error = none) :
    show_search_page lc rf resp uid query films x db =
      .shown (clamp_page x films.length) films.length
        (create_pagination_keyboard (clamp_page x films.length)
          ((films.length : Nat) : Int) "search")
        (db ++ [⟨uid, query,
          get_film_name (films.getD (clamp_page x films.length).toNat default),
          (films.getD (clamp_page x films.length).toNat default).year⟩]) := by
  rw [show_search_page, if_neg hne]
  dsimp only
  obtain ⟨caption, hcap⟩ := get_film_caption_ok lc rf resp
    (films.getD (clamp_page x films.length).toNat default) herr
  rw [hcap]
  rfl

/-- C10 (implicit frame effect): processing one free-text search message over
a non-empty result list appends exactly two SearchRecords — first the resolved
(name, year) record written by rendering page 0, then the null-name/year record
written by the message handler itself — and every subsequent `next`/`prev`
navigation event on the search context appends exactly one further record for
the same query, because every render of a search page performs a history
write. -/
theorem search_flow_appends_records (lc : Nat) (rf : String → String → Nat)
    (resp : FilmixResponse) (uid : Nat) (query : String) (films : List Film)
    (db : List SearchRecord) (hne : films ≠ []) :
    ((films.getD 0 default).error = none →
      movie_search_handler lc rf resp uid query films db =
        .ok (db ++ [⟨uid, query, get_film_name (films.getD 0 default),
            (films.getD 0 default).year⟩,
          ⟨uid, query, none, none⟩]))
    ∧ (∀ p : Int,
        (films.getD (clamp_page (p + 1) films.length).toNat default).error =
          none →
        search_next_page lc rf resp uid query films p db =
          .shown (clamp_page (p + 1) films.length) films.length
            (create_pagination_keyboard (clamp_page (p + 1) films.length)
              ((films.length : Nat) : Int) "search")
            (db ++ [⟨uid, query,
              get_film_name (films.getD
                (clamp_page (p + 1) films.length).toNat default),
              (films.getD (clamp_page (p + 1) films.length).toNat
                default).year⟩]))
    ∧ (∀ p : Int,
        (films.getD (clamp_page (max 0 (p - 1)) films.length).toNat
          default).error = none →
        search_prev_page lc rf resp uid query films p db =
          .shown (clamp_page (max 0 (p - 1)) films.length) films.length
            (create_pagination_keyboard (clamp_page (max 0 (p - 1)) films.length)
              ((films.length : Nat) : Int) "search")
            (db ++ [⟨uid, query,
              get_film_name (films.getD
                (clamp_page (max 0 (p - 1)) films.length).toNat default),
              (films.getD (clamp_page (max 0 (p - 1)) films.length).toNat
                default).year⟩])) := by
  have hlen : 1 ≤ films.length := List.length_pos.mpr hne
  have h0 : clamp_page 0 films.length = 0 := by
    unfold clamp_page
    omega
  refine ⟨?_, ?_, ?_⟩
  · intro herr
    rw [movie_search_handler, show_search_page_shown lc rf resp uid query films
      0 db hne (by rw [h0]; exact herr)]
    simp [add_search, h0]
  · intro p herr
    rw [search_next_page, show_search_page_shown lc rf resp uid query films
      (p + 1) db hne herr]
  · intro p herr
    rw [search_prev_page, show_search_page_shown lc rf resp uid query films
      (max 0 (p - 1)) db hne herr]

/-- Witness for C10: one search message over a single resolved film appends
the resolved record then the null record; a `next` event over a two-film list
appends one record for the same query, resolved from the newly shown film. -/
theorem search_flow_appends_records_witness :
    movie_search_handler 1 (fun _ _ => 0) (.ok []) 7 "venom"
        [{ filmId := some 1, nameRu := some "Venom", year := some "2018" }] [] =
      .ok [⟨7, "venom", some "Venom", some "2018"⟩, ⟨7, "venom", none, none⟩]
    ∧ search_next_page 1 (fun _ _ => 0) (.ok []) 7 "q"
        [{ nameRu := some "A", year := some "1999" },
          { nameRu := some "B", year := some "2000" }] 0 [] =
      .shown 1 2 (create_pagination_keyboard 1 ((2 : Nat) : Int) "search")
        [⟨7, "q", some "B", some "2000"⟩] := by
  constructor
  · have h := (search_flow_appends_records 1 (fun _ _ => 0) (.ok []) 7 "venom"
      [{ filmId := some 1, nameRu := some "Venom", year := some "2018" }] []
      (by decide)).1 (by decide)
    exact h.trans (by decide)
  · have h := (search_flow_appends_records 1 (fun _ _ => 0) (.ok []) 7 "q"
      [{ nameRu := some "A", year := some "1999" },
        { nameRu := some "B", year := some "2000" }] [] (by decide)).2.1 0
      (by decide)
    exact h.trans (by decide)
